import Mathlib

/-!
Verification of the view construction of `pytensor<T, N>` (xtensor-python).

A shallow embedding of `include/xtensor-python/pytensor.hpp`: the rank check, the
derivation of element strides from the byte strides of a NumPy array, the
`adapt_strides` loop that fills the backstrides, the shape constructors, `reshape`
and `ensure`.

Conventions of the embedding.

* `std::size_t` and `npy_intp` are `w`-bit integers of the same width. Unsigned values
  are natural numbers reduced modulo `2 ^ w`; signed values are integers.
* `std::array<size_type, N>` is `Mathlib.Vector Nat N`.
* A constructor that throws returns `Except.error`; the failures are listed in
  `Failure`.
* The NumPy C-API and the pybind11 object model are not part of the repository. What
  the adaptor reads from them is a field of `PyArrayObject`; what it asks of them
  (`PyArray_New`, the coercion behind `raw_array_t`) is a field of `Env`.
  Reference counts are not modelled.
-/

namespace xt

/-! Machine arithmetic -/

/-- Conversion of a signed `npy_intp` value to `std::size_t`: reduction modulo `2 ^ w`. -/
def to_size_t (w : Nat) (v : Int) : Nat := (v % (2 : Int) ^ w).toNat

/-- Conversion of a `std::size_t` value to `npy_intp`: the signed reading of the low
`w` bits (wrap-around). -/
def to_npy_intp (w : Nat) (u : Nat) : Int :=
  if u % 2 ^ w < 2 ^ (w - 1) then ((u % 2 ^ w : Nat) : Int)
  else ((u % 2 ^ w : Nat) : Int) - (2 : Int) ^ w

/-- Unsigned `w`-bit multiplication. -/
def size_mul (w : Nat) (a b : Nat) : Nat := (a * b) % 2 ^ w

/-- Unsigned `w`-bit subtraction (wraps around below zero). -/
def size_sub (w : Nat) (a b : Nat) : Nat := (a + 2 ^ w - b) % 2 ^ w

/-! The foreign runtime as the adaptor sees it -/

/-- A NumPy array object, reduced to what the accessors used in `pytensor.hpp`
read from it: `PyArray_NDIM`, `PyArray_DIMS`, `PyArray_STRIDES` (in bytes) and
`PyArray_DATA`. The field `id` tells two objects with the same layout apart. -/
structure PyArrayObject where
  id : Nat
  nd : Nat
  dimensions : List Int
  strides : List Int
  data : Nat
deriving DecidableEq

/-- A Python object: a NumPy array or anything else. -/
inductive PyObject where
  | ndarray (a : PyArrayObject)
  | other (id : Nat)
deriving DecidableEq

/-- The NumPy accessor `PyArray_SIZE(m)`: `PyArray_MultiplyList(PyArray_DIMS(m), PyArray_NDIM(m))`. -/
def PyArray_SIZE (a : PyArrayObject) : Int := (a.dimensions.take a.nd).prod

/-- NumPy flag constant `NPY_ARRAY_ALIGNED`. -/
def NPY_ARRAY_ALIGNED : Nat := 0x0100

/-- NumPy flag constant `NPY_ARRAY_WRITEABLE`. -/
def NPY_ARRAY_WRITEABLE : Nat := 0x0400

/-- An array object as NumPy hands it out, for word size `w`: `nd` extents and `nd`
byte strides, every extent a non-negative `npy_intp`, every stride an `npy_intp`. -/
def PyArrayObject.wf (w : Nat) (a : PyArrayObject) : Prop :=
  a.dimensions.length = a.nd ∧ a.strides.length = a.nd ∧
  (∀ d ∈ a.dimensions, 0 ≤ d ∧ d < (2 : Int) ^ (w - 1)) ∧
  (∀ s ∈ a.strides, -(2 : Int) ^ (w - 1) ≤ s ∧ s < (2 : Int) ^ (w - 1))

/-- The two ownership tags of pybind11, `borrowed_t` and `stolen_t`. -/
inductive OwnershipMode where
  | borrowed
  | stolen
deriving DecidableEq

/-- The ways a constructor of `pytensor` fails to return. -/
inductive Failure where
  /-- The exception `std::runtime_error("NumPy: ndarray has incorrect number of dimensions")`. -/
  | dimension_mismatch
  /-- The exception `std::runtime_error("NumPy: unable to create ndarray")`. -/
  | allocation_error
  /-- An accessor applied to a null pointer or to an object that is no array:
  undefined behaviour in C++. -/
  | undefined
deriving DecidableEq

/-! The view -/

/-- Modelled from the spec: `pybuffer_adaptor<T>` is declared in `pybuffer_adaptor.hpp`,
which is not among the sources; the spec describes it as a (base pointer, element
count) pair. -/
structure pybuffer_adaptor where
  p_data : Nat
  m_size : Nat
deriving DecidableEq

/-- The data members of `pytensor<T, N>`; `m_ptr` is the member inherited from
`pybind11::object` (`none` is the null pointer). -/
structure pytensor (N : Nat) where
  m_ptr : Option PyObject
  m_shape : Mathlib.Vector Nat N
  m_strides : Mathlib.Vector Nat N
  m_backstrides : Mathlib.Vector Nat N
  m_data : pybuffer_adaptor
deriving DecidableEq

/-- Everything `pytensor<T, N>` takes from outside `pytensor.hpp`.

* `w`: the width in bits of `std::size_t` and `npy_intp`.
* `sizeof_T`, `is_const_T`, `type_num`: `sizeof(T)`, `std::is_const<T>::value` and
  `detail::numpy_traits<T>::type_num` of the element type `T`.
* `PyArray_New nd dims type_num strides itemsize flags`: the NumPy allocation entry
  point (the arguments the source passes as `nullptr` are left out); `none` is a null
  result.
* `raw_array_t`: the coercion `base_type::raw_array_t` of `pycontainer.hpp`.
* `blank`: the data members of an object on which a constructor body starts to run:
  the three arrays are default-initialised (indeterminate) and `m_data` is a
  default-constructed `pybuffer_adaptor`. -/
structure Env (N : Nat) where
  w : Nat
  sizeof_T : Nat
  is_const_T : Bool
  type_num : Int
  PyArray_New : Nat → List Int → Int → List Int → Nat → Nat → Option PyObject
  raw_array_t : Option PyObject → Option PyObject
  blank : pytensor N

/-- Modelled from the spec: `base_type::fill_default_strides` is defined in
`pycontainer.hpp`, which is not among the sources. The spec: "Compute default
row-major contiguous Strides: `Strides[N-1] = 1`; `Strides[i] = Strides[i+1] ×
Shape[i+1]` for i from N-2 down to 0." The product is taken in `size_type`. -/
def fill_default_strides_list (w : Nat) : List Nat → List Nat
  | [] => []
  | [_] => [1]
  | _ :: s :: rest =>
    match fill_default_strides_list w (s :: rest) with
    | [] => []
    | t :: ts => size_mul w t s :: t :: ts

/-- Modelled from the spec: `fill_default_strides(shape, strides)` on arrays of rank
`N`, see `fill_default_strides_list`. -/
def fill_default_strides (w : Nat) {N : Nat} (shape : Mathlib.Vector Nat N) :
    Mathlib.Vector Nat N :=
  ⟨fill_default_strides_list w shape.toList, by
    have key : ∀ l : List Nat, (fill_default_strides_list w l).length = l.length := by
      intro l
      induction l with
      | nil => rfl
      | cons a l ih =>
        cases l with
        | nil => rfl
        | cons s rest =>
          rw [fill_default_strides_list]
          cases h : fill_default_strides_list w (s :: rest) with
          | nil => rw [h] at ih; simp at ih
          | cons t ts => rw [h] at ih; simpa using ih
    rw [key]; exact shape.toList_length⟩

namespace pytensor

variable {N : Nat}

/-- The body of the loop of `adapt_strides` at index `i` (pytensor.hpp, lines 270-278). -/
def adapt_strides_body (w : Nat) (t : pytensor N) (i : Fin N) : pytensor N :=
  if t.m_shape.get i = 1 then
    { t with m_strides := t.m_strides.set i 0, m_backstrides := t.m_backstrides.set i 0 }
  else
    { t with m_backstrides :=
        t.m_backstrides.set i (size_mul w (t.m_strides.get i) (size_sub w (t.m_shape.get i) 1)) }

/-- The member `pytensor::adapt_strides`: `for(size_type i = 0; i < m_shape.size(); ++i)`,
where `m_shape.size()` is `N`. -/
def adapt_strides (w : Nat) (t : pytensor N) : pytensor N :=
  (List.finRange N).foldl (adapt_strides_body w) t

/-- The member `pytensor::init_tensor(shape, strides)`. Line 228 of the source spells
`strides.beign()`; it is read as `strides.begin()`. -/
def init_tensor (env : Env N) (t : pytensor N) (shape strides : Mathlib.Vector Nat N) :
    Except Failure (pytensor N) :=
  let python_strides : List Int :=
    strides.toList.map (fun v => to_npy_intp env.w (size_mul env.w env.sizeof_T v))
  let flags : Nat :=
    if !env.is_const_T then NPY_ARRAY_ALIGNED ||| NPY_ARRAY_WRITEABLE else NPY_ARRAY_ALIGNED
  match env.PyArray_New N (shape.toList.map (to_npy_intp env.w)) env.type_num python_strides
      env.sizeof_T flags with
  | none => Except.error Failure.allocation_error
  | some p =>
    Except.ok (adapt_strides env.w { t with m_ptr := some p, m_shape := shape, m_strides := strides })

/-- The member `pytensor::init_from_python`. -/
def init_from_python (env : Env N) (t : pytensor N) : Except Failure (pytensor N) :=
  match t.m_ptr with
  | some (PyObject.ndarray a) =>
    if a.nd ≠ N then Except.error Failure.dimension_mismatch
    else
      let t1 : pytensor N :=
        { t with m_shape := Mathlib.Vector.ofFn (fun i => to_size_t env.w (a.dimensions.getD i 0)) }
      let t2 : pytensor N :=
        { t1 with m_strides :=
            Mathlib.Vector.ofFn (fun i => to_size_t env.w (a.strides.getD i 0) / env.sizeof_T) }
      let t3 := adapt_strides env.w t2
      Except.ok { t3 with m_data := ⟨a.data, to_size_t env.w (PyArray_SIZE a)⟩ }
  | _ => Except.error Failure.undefined

/-- The constructors `pytensor(pybind11::handle h, borrowed_t)` and
`pytensor(pybind11::handle h, stolen_t)`: the base class records `h` (and, for
`borrowed`, increments its reference count), then `init_from_python` runs. -/
def fromHandle (env : Env N) (h : Option PyObject) (mode : OwnershipMode) :
    Except Failure (pytensor N) :=
  match mode with
  | OwnershipMode.borrowed => init_from_python env { env.blank with m_ptr := h }
  | OwnershipMode.stolen => init_from_python env { env.blank with m_ptr := h }

/-- The constructor `pytensor(const shape_type& shape, const strides_type& strides)`. -/
def fromShapeAndStrides (env : Env N) (shape strides : Mathlib.Vector Nat N) :
    Except Failure (pytensor N) :=
  init_tensor env { env.blank with m_ptr := none } shape strides

/-- The constructor `pytensor(const shape_type& shape)`. -/
def fromShape (env : Env N) (shape : Mathlib.Vector Nat N) : Except Failure (pytensor N) :=
  let t : pytensor N :=
    { env.blank with m_ptr := none, m_strides := fill_default_strides env.w shape }
  init_tensor env t shape t.m_strides

/-- The member `pytensor::reshape(shape, strides)`: a temporary is constructed and move-assigned
to `*this`, member by member. -/
def reshape_strides (env : Env N) (_self : pytensor N) (shape strides : Mathlib.Vector Nat N) :
    Except Failure (pytensor N) :=
  match fromShapeAndStrides env shape strides with
  | Except.error e => Except.error e
  | Except.ok tmp => Except.ok tmp

/-- The member `pytensor::reshape(shape)`. -/
def reshape (env : Env N) (self : pytensor N) (shape : Mathlib.Vector Nat N) :
    Except Failure (pytensor N) :=
  if shape ≠ self.m_shape then
    reshape_strides env self shape (fill_default_strides env.w shape)
  else Except.ok self

/-- The static member `pytensor::ensure(h)`: `reinterpret_steal<self_type>` runs the `stolen_t`
constructor on the result of the coercion. `PyErr_Clear` touches only the error
indicator of the interpreter, which is not part of the model. -/
def ensure (env : Env N) (h : Option PyObject) : Except Failure (pytensor N) :=
  match fromHandle env (env.raw_array_t h) OwnershipMode.stolen with
  | Except.error e => Except.error e
  | Except.ok result => Except.ok result

/-- The allocation request `init_tensor` sends for a shape and element strides. -/
def init_tensor_request (env : Env N) (shape strides : Mathlib.Vector Nat N) : Option PyObject :=
  env.PyArray_New N (shape.toList.map (to_npy_intp env.w)) env.type_num
    (strides.toList.map (fun v => to_npy_intp env.w (size_mul env.w env.sizeof_T v)))
    env.sizeof_T
    (if !env.is_const_T then NPY_ARRAY_ALIGNED ||| NPY_ARRAY_WRITEABLE else NPY_ARRAY_ALIGNED)


/-- The views a caller can hold: the result of a constructor (`fromHandle`,
`fromShape`, `fromShapeAndStrides`) or of `ensure` that returned, and the result of
either form of `reshape` on such a view. -/
inductive Bound (env : Env N) : pytensor N → Prop where
  | of_handle (h : Option PyObject) (mode : OwnershipMode) (t : pytensor N) :
      fromHandle env h mode = Except.ok t → Bound env t
  | of_ensure (h : Option PyObject) (t : pytensor N) :
      ensure env h = Except.ok t → Bound env t
  | of_shape (shape : Mathlib.Vector Nat N) (t : pytensor N) :
      fromShape env shape = Except.ok t → Bound env t
  | of_shape_strides (shape strides : Mathlib.Vector Nat N) (t : pytensor N) :
      fromShapeAndStrides env shape strides = Except.ok t → Bound env t
  | of_reshape (self : pytensor N) (shape : Mathlib.Vector Nat N) (t : pytensor N) :
      Bound env self → reshape env self shape = Except.ok t → Bound env t
  | of_reshape_strides (self : pytensor N) (shape strides : Mathlib.Vector Nat N)
      (t : pytensor N) :
      Bound env self → reshape_strides env self shape strides = Except.ok t → Bound env t

/-- What `adapt_strides` establishes on every axis. -/
def Adapted (w : Nat) (t : pytensor N) : Prop :=
  ∀ i : Fin N,
    (t.m_shape.get i = 1 → t.m_strides.get i = 0 ∧ t.m_backstrides.get i = 0) ∧
    (t.m_shape.get i ≠ 1 →
      t.m_backstrides.get i = size_mul w (t.m_strides.get i) (size_sub w (t.m_shape.get i) 1))

end pytensor

/-! Sample environments, arrays and views -/

/-- An allocator that never fails: the new array object records the layout it was
asked for. -/
def sample_New : Nat → List Int → Int → List Int → Nat → Nat → Option PyObject :=
  fun nd dims _ strides _ _ => some (PyObject.ndarray ⟨1, nd, dims, strides, 4096⟩)

/-- A 64-bit platform with `T = double` (`sizeof(T) = 8`, `NPY_DOUBLE = 12`), an
allocator that never fails and a coercion that hands arrays through. The argument is
the default-constructed buffer adaptor. -/
def sample_env (N : Nat) (d : pybuffer_adaptor) : Env N :=
  { w := 64, sizeof_T := 8, is_const_T := false, type_num := 12,
    PyArray_New := sample_New,
    raw_array_t := fun h => h,
    blank := ⟨none, Mathlib.Vector.replicate N 0, Mathlib.Vector.replicate N 0,
      Mathlib.Vector.replicate N 0, d⟩ }

/-- The view `fromShape([1, 5])` builds in `sample_env`. -/
def sample_view_1_5 : pytensor 2 :=
  ⟨some (PyObject.ndarray ⟨1, 2, [1, 5], [40, 8], 4096⟩), ⟨[1, 5], rfl⟩, ⟨[0, 1], rfl⟩,
    ⟨[0, 4], rfl⟩, ⟨0, 0⟩⟩

/-- A C-contiguous 2 × 3 array of doubles. -/
def sample_array_2_3 : PyArrayObject := ⟨7, 2, [2, 3], [24, 8], 8192⟩

/-- The view `fromHandle` builds on `sample_array_2_3` in `sample_env`. -/
def sample_view_2_3 : pytensor 2 :=
  ⟨some (PyObject.ndarray sample_array_2_3), ⟨[2, 3], rfl⟩, ⟨[3, 1], rfl⟩, ⟨[3, 2], rfl⟩,
    ⟨8192, 6⟩⟩

/-- A view state with an empty axis, as `adapt_strides` may find it. -/
def sample_state_0_3 : pytensor 2 :=
  ⟨none, ⟨[0, 3], rfl⟩, ⟨[3, 1], rfl⟩, ⟨[0, 0], rfl⟩, ⟨0, 0⟩⟩

/-- A one-dimensional array of doubles of length 3. -/
def sample_array_3 : PyArrayObject := ⟨8, 1, [3], [8], 8192⟩

/-- The array `sample_array_3` read backwards (`a[::-1]` in NumPy): the byte stride
is −8 and the data pointer is the address of the last element. -/
def sample_array_3_reversed : PyArrayObject := ⟨9, 1, [3], [-8], 8208⟩

/-- An environment like `sample_env` whose allocator always fails. -/
def sample_env_no_memory (N : Nat) : Env N :=
  { sample_env N ⟨0, 0⟩ with PyArray_New := fun _ _ _ _ _ _ => none }

/-! Machine arithmetic and default strides: lemmas -/

theorem size_mul_size_sub_one (w a s : Nat) (hs : 1 ≤ s) :
    size_mul w a (size_sub w s 1) = (a * (s - 1)) % 2 ^ w := by
  unfold size_mul size_sub
  have hm : 0 < 2 ^ w := Nat.two_pow_pos w
  have h : s + 2 ^ w - 1 = (s - 1) + 2 ^ w := by omega
  rw [h, Nat.add_mod_right, Nat.mul_mod, Nat.mod_mod, ← Nat.mul_mod]

theorem size_mul_size_sub_zero (w s : Nat) (hs : s < 2 ^ w) :
    size_mul w s (size_sub w 0 1) = (2 ^ w - s) % 2 ^ w := by
  unfold size_mul size_sub
  have hm : 0 < 2 ^ w := Nat.two_pow_pos w
  obtain ⟨n, hn⟩ : ∃ n, 2 ^ w = n + 1 := ⟨2 ^ w - 1, by omega⟩
  rw [hn] at hs ⊢
  have h1 : (0 + (n + 1) - 1) % (n + 1) = n := by
    rw [show 0 + (n + 1) - 1 = n by omega]; exact Nat.mod_eq_of_lt (by omega)
  rw [h1]
  rcases Nat.eq_zero_or_pos s with h0 | hpos
  · subst h0; simp
  · obtain ⟨k, rfl⟩ : ∃ k, s = k + 1 := ⟨s - 1, by omega⟩
    obtain ⟨d, rfl⟩ : ∃ d, n = k + d := ⟨n - k, by omega⟩
    have h2 : (k + 1) * (k + d) = d + k * (k + d + 1) := by ring
    have h3 : k + d + 1 - (k + 1) = d := by omega
    rw [h2, h3, Nat.add_mul_mod_self_right]

theorem to_size_t_of_nonneg (w : Nat) (d : Int) (h0 : 0 ≤ d) (h1 : d < (2 : Int) ^ (w - 1)) :
    ((to_size_t w d : Nat) : Int) = d := by
  unfold to_size_t
  have hle : (2 : Int) ^ (w - 1) ≤ (2 : Int) ^ w :=
    pow_le_pow_right₀ (by norm_num) (Nat.sub_le w 1)
  rw [Int.emod_eq_of_lt h0 (lt_of_lt_of_le h1 hle), Int.toNat_of_nonneg h0]

theorem vector_get_eq_getD {N : Nat} (v : Mathlib.Vector Nat N) (i : Fin N) :
    v.get i = v.toList.getD i.val 0 := by
  have hi : i.val < v.toList.length := by rw [v.toList_length]; exact i.isLt
  rw [List.getD_eq_getElem _ _ hi]
  rfl

theorem fill_default_strides_list_length (w : Nat) (shape : List Nat) :
    (fill_default_strides_list w shape).length = shape.length := by
  induction shape with
  | nil => rfl
  | cons a l ih =>
    cases l with
    | nil => rfl
    | cons s rest =>
      rw [fill_default_strides_list]
      cases h : fill_default_strides_list w (s :: rest) with
      | nil => rw [h] at ih; simp at ih
      | cons t ts => rw [h] at ih; simpa using ih

theorem fill_default_strides_list_succ (w : Nat) (l : List Nat) (i : Nat)
    (hi : i + 1 < l.length) :
    (fill_default_strides_list w l).getD i 0 =
      size_mul w ((fill_default_strides_list w l).getD (i + 1) 0) (l.getD (i + 1) 0) := by
  induction l generalizing i with
  | nil => simp at hi
  | cons a l ih =>
    cases l with
    | nil => simp at hi
    | cons s rest =>
      rw [fill_default_strides_list]
      have hlen := fill_default_strides_list_length w (s :: rest)
      cases hf : fill_default_strides_list w (s :: rest) with
      | nil => rw [hf] at hlen; simp at hlen
      | cons t ts =>
        cases i with
        | zero => simp
        | succ j =>
          have := ih j (by simpa using hi)
          rw [hf] at this
          simpa using this

theorem fill_default_strides_list_last (w : Nat) (l : List Nat) (hl : 0 < l.length) :
    (fill_default_strides_list w l).getD (l.length - 1) 0 = 1 := by
  induction l with
  | nil => simp at hl
  | cons a l ih =>
    cases l with
    | nil => simp [fill_default_strides_list]
    | cons s rest =>
      rw [fill_default_strides_list]
      have hlen := fill_default_strides_list_length w (s :: rest)
      cases hf : fill_default_strides_list w (s :: rest) with
      | nil => rw [hf] at hlen; simp at hlen
      | cons t ts =>
        have := ih (by simp)
        rw [hf] at this
        simpa using this

theorem fill_default_strides_last (w : Nat) {N : Nat} (shape : Mathlib.Vector Nat N)
    (hN : 0 < N) : (fill_default_strides w shape).get ⟨N - 1, by omega⟩ = 1 := by
  rw [vector_get_eq_getD]
  have := fill_default_strides_list_last w shape.toList (by rw [shape.toList_length]; exact hN)
  rw [shape.toList_length] at this
  exact this

theorem fill_default_strides_succ (w : Nat) {N : Nat} (shape : Mathlib.Vector Nat N)
    (i : Nat) (hi : i + 1 < N) :
    (fill_default_strides w shape).get ⟨i, by omega⟩ =
      size_mul w ((fill_default_strides w shape).get ⟨i + 1, hi⟩) (shape.get ⟨i + 1, hi⟩) := by
  rw [vector_get_eq_getD, vector_get_eq_getD, vector_get_eq_getD]
  exact fill_default_strides_list_succ w shape.toList i (by rw [shape.toList_length]; exact hi)

namespace pytensor

variable {N : Nat}

/-! What `adapt_strides` and the constructors establish -/

theorem adapt_strides_body_shape (w : Nat) (t : pytensor N) (i : Fin N) :
    (adapt_strides_body w t i).m_shape = t.m_shape := by
  unfold adapt_strides_body; split <;> rfl

theorem adapt_strides_body_ptr (w : Nat) (t : pytensor N) (i : Fin N) :
    (adapt_strides_body w t i).m_ptr = t.m_ptr := by
  unfold adapt_strides_body; split <;> rfl

theorem adapt_strides_body_data (w : Nat) (t : pytensor N) (i : Fin N) :
    (adapt_strides_body w t i).m_data = t.m_data := by
  unfold adapt_strides_body; split <;> rfl

theorem adapt_strides_body_strides (w : Nat) (t : pytensor N) (i j : Fin N) :
    (adapt_strides_body w t i).m_strides.get j =
      if i = j ∧ t.m_shape.get i = 1 then 0 else t.m_strides.get j := by
  unfold adapt_strides_body
  by_cases h1 : t.m_shape.get i = 1
  · by_cases hij : i = j
    · subst hij; simp [h1, Mathlib.Vector.get_set_same]
    · simp [h1, hij, Mathlib.Vector.get_set_of_ne hij]
  · simp [h1]

theorem adapt_strides_body_backstrides (w : Nat) (t : pytensor N) (i j : Fin N) :
    (adapt_strides_body w t i).m_backstrides.get j =
      if i = j then
        (if t.m_shape.get i = 1 then 0
         else size_mul w (t.m_strides.get i) (size_sub w (t.m_shape.get i) 1))
      else t.m_backstrides.get j := by
  unfold adapt_strides_body
  by_cases h1 : t.m_shape.get i = 1
  · by_cases hij : i = j
    · subst hij; simp [h1, Mathlib.Vector.get_set_same]
    · simp [h1, hij, Mathlib.Vector.get_set_of_ne hij]
  · by_cases hij : i = j
    · subst hij; simp [h1, Mathlib.Vector.get_set_same]
    · simp [h1, hij, Mathlib.Vector.get_set_of_ne hij]

theorem foldl_body_shape (w : Nat) (l : List (Fin N)) (t : pytensor N) :
    (l.foldl (adapt_strides_body w) t).m_shape = t.m_shape := by
  induction l generalizing t with
  | nil => rfl
  | cons a l ih => rw [List.foldl_cons, ih, adapt_strides_body_shape]

theorem foldl_body_ptr (w : Nat) (l : List (Fin N)) (t : pytensor N) :
    (l.foldl (adapt_strides_body w) t).m_ptr = t.m_ptr := by
  induction l generalizing t with
  | nil => rfl
  | cons a l ih => rw [List.foldl_cons, ih, adapt_strides_body_ptr]

theorem foldl_body_data (w : Nat) (l : List (Fin N)) (t : pytensor N) :
    (l.foldl (adapt_strides_body w) t).m_data = t.m_data := by
  induction l generalizing t with
  | nil => rfl
  | cons a l ih => rw [List.foldl_cons, ih, adapt_strides_body_data]

theorem foldl_body_strides (w : Nat) (l : List (Fin N)) (t : pytensor N) (j : Fin N) :
    (l.foldl (adapt_strides_body w) t).m_strides.get j =
      if j ∈ l ∧ t.m_shape.get j = 1 then 0 else t.m_strides.get j := by
  induction l generalizing t with
  | nil => simp
  | cons a l ih =>
    rw [List.foldl_cons, ih, adapt_strides_body_shape, adapt_strides_body_strides]
    by_cases h1 : t.m_shape.get j = 1
    · by_cases hj : j ∈ l
      · simp [h1, hj]
      · by_cases haj : a = j
        · subst haj; simp [h1]
        · have hja : ¬ j = a := fun h => haj h.symm
          simp [h1, hj, haj, hja]
    · have : ¬ (a = j ∧ t.m_shape.get a = 1) := by
        rintro ⟨rfl, h⟩; exact h1 h
      simp [h1, this]

theorem foldl_body_backstrides (w : Nat) (l : List (Fin N)) (t : pytensor N) (j : Fin N) :
    (l.foldl (adapt_strides_body w) t).m_backstrides.get j =
      if j ∈ l then
        (if t.m_shape.get j = 1 then 0
         else size_mul w (t.m_strides.get j) (size_sub w (t.m_shape.get j) 1))
      else t.m_backstrides.get j := by
  induction l generalizing t with
  | nil => simp
  | cons a l ih =>
    rw [List.foldl_cons, ih, adapt_strides_body_shape, adapt_strides_body_strides,
      adapt_strides_body_backstrides]
    by_cases hj : j ∈ l
    · by_cases h1 : t.m_shape.get j = 1
      · simp [hj, h1]
      · have : ¬ (a = j ∧ t.m_shape.get a = 1) := by
          rintro ⟨rfl, h⟩; exact h1 h
        simp [hj, h1, this]
    · by_cases haj : a = j
      · subst haj; simp [hj]
      · have hja : ¬ j = a := fun h => haj h.symm
        simp [hj, haj, hja]

theorem adapt_strides_shape (w : Nat) (t : pytensor N) :
    (adapt_strides w t).m_shape = t.m_shape := foldl_body_shape w _ t

theorem adapt_strides_ptr (w : Nat) (t : pytensor N) :
    (adapt_strides w t).m_ptr = t.m_ptr := foldl_body_ptr w _ t

theorem adapt_strides_data (w : Nat) (t : pytensor N) :
    (adapt_strides w t).m_data = t.m_data := foldl_body_data w _ t

theorem adapt_strides_strides (w : Nat) (t : pytensor N) (j : Fin N) :
    (adapt_strides w t).m_strides.get j =
      if t.m_shape.get j = 1 then 0 else t.m_strides.get j := by
  unfold adapt_strides
  rw [foldl_body_strides]; simp [List.mem_finRange]

theorem adapt_strides_backstrides (w : Nat) (t : pytensor N) (j : Fin N) :
    (adapt_strides w t).m_backstrides.get j =
      if t.m_shape.get j = 1 then 0
      else size_mul w (t.m_strides.get j) (size_sub w (t.m_shape.get j) 1) := by
  unfold adapt_strides
  rw [foldl_body_backstrides]; simp [List.mem_finRange]

theorem adapt_strides_adapted (w : Nat) (t : pytensor N) : Adapted w (adapt_strides w t) := by
  intro i
  rw [adapt_strides_shape, adapt_strides_strides, adapt_strides_backstrides]
  constructor
  · intro h; simp [h]
  · intro h; simp [h]

theorem init_tensor_ok (env : Env N) (t0 t : pytensor N) (shape strides : Mathlib.Vector Nat N)
    (h : init_tensor env t0 shape strides = Except.ok t) :
    ∃ p, t = adapt_strides env.w { t0 with m_ptr := some p, m_shape := shape, m_strides := strides } := by
  unfold init_tensor at h
  simp only at h
  split at h
  · cases h
  · rename_i p _
    exact ⟨p, (Except.ok.inj h).symm⟩

theorem init_tensor_adapted (env : Env N) (t0 t : pytensor N)
    (shape strides : Mathlib.Vector Nat N)
    (h : init_tensor env t0 shape strides = Except.ok t) : Adapted env.w t := by
  obtain ⟨p, rfl⟩ := init_tensor_ok env t0 t shape strides h
  exact adapt_strides_adapted _ _

theorem init_from_python_adapted (env : Env N) (t0 t : pytensor N)
    (h : init_from_python env t0 = Except.ok t) : Adapted env.w t := by
  unfold init_from_python at h
  split at h
  · rename_i a _
    split at h
    · cases h
    · have ht := (Except.ok.inj h).symm
      subst ht
      exact adapt_strides_adapted env.w _
  · cases h

theorem reshape_strides_eq (env : Env N) (self : pytensor N)
    (shape strides : Mathlib.Vector Nat N) :
    reshape_strides env self shape strides = fromShapeAndStrides env shape strides := by
  unfold reshape_strides
  cases fromShapeAndStrides env shape strides <;> rfl

theorem ensure_eq (env : Env N) (h : Option PyObject) :
    ensure env h = fromHandle env (env.raw_array_t h) OwnershipMode.stolen := by
  unfold ensure
  cases fromHandle env (env.raw_array_t h) OwnershipMode.stolen <;> rfl

theorem bound_adapted (env : Env N) (t : pytensor N) (hb : Bound env t) : Adapted env.w t := by
  induction hb with
  | of_handle h mode t ht =>
    cases mode <;> exact init_from_python_adapted env _ t ht
  | of_ensure h t ht =>
    rw [ensure_eq] at ht
    exact init_from_python_adapted env _ t ht
  | of_shape shape t ht => exact init_tensor_adapted env _ t _ _ ht
  | of_shape_strides shape strides t ht => exact init_tensor_adapted env _ t _ _ ht
  | of_reshape self shape t _ ht ih =>
    unfold reshape at ht
    split at ht
    · rw [reshape_strides_eq] at ht
      exact init_tensor_adapted env _ t _ _ ht
    · cases ht; exact ih
  | of_reshape_strides self shape strides t _ ht _ =>
    rw [reshape_strides_eq] at ht
    exact init_tensor_adapted env _ t _ _ ht

theorem init_tensor_fields (env : Env N) (t0 t : pytensor N)
    (shape strides : Mathlib.Vector Nat N)
    (h : init_tensor env t0 shape strides = Except.ok t) :
    t.m_shape = shape ∧ t.m_data = t0.m_data ∧
      ∀ i : Fin N, t.m_strides.get i = if shape.get i = 1 then 0 else strides.get i := by
  obtain ⟨p, rfl⟩ := init_tensor_ok env t0 t shape strides h
  refine ⟨adapt_strides_shape _ _, adapt_strides_data _ _, ?_⟩
  intro i
  rw [adapt_strides_strides]

theorem init_tensor_eq (env : Env N) (t0 : pytensor N) (shape strides : Mathlib.Vector Nat N) :
    init_tensor env t0 shape strides =
      match init_tensor_request env shape strides with
      | none => Except.error Failure.allocation_error
      | some p =>
        Except.ok (adapt_strides env.w
          { t0 with m_ptr := some p, m_shape := shape, m_strides := strides }) := rfl

theorem fromShapeAndStrides_of_request (env : Env N) (shape strides : Mathlib.Vector Nat N)
    (p : PyObject) (hp : init_tensor_request env shape strides = some p) :
    fromShapeAndStrides env shape strides = Except.ok (adapt_strides env.w
      { env.blank with m_ptr := some p, m_shape := shape, m_strides := strides }) := by
  unfold fromShapeAndStrides
  rw [init_tensor_eq]
  show (match init_tensor_request env shape strides with
    | none => Except.error Failure.allocation_error
    | some p => Except.ok (adapt_strides env.w
        { env.blank with m_ptr := some p, m_shape := shape, m_strides := strides })) = _
  rw [hp]

theorem fromShapeAndStrides_of_no_object (env : Env N) (shape strides : Mathlib.Vector Nat N)
    (hp : init_tensor_request env shape strides = none) :
    fromShapeAndStrides env shape strides = Except.error Failure.allocation_error := by
  unfold fromShapeAndStrides
  rw [init_tensor_eq]
  show (match init_tensor_request env shape strides with
    | none => Except.error Failure.allocation_error
    | some p => Except.ok (adapt_strides env.w
        { env.blank with m_ptr := some p, m_shape := shape, m_strides := strides })) = _
  rw [hp]

/-! The claims -/

/-- C1: on every view produced by a binding path (`fromHandle`, `fromShape`,
`fromShapeAndStrides`, `reshape` with or without strides), every axis of extent 1 has
stride 0 and backstride 0. -/
theorem bound_degenerate_axis_zero (env : Env N) (t : pytensor N) (hb : Bound env t)
    (i : Fin N) (h1 : t.m_shape.get i = 1) :
    t.m_strides.get i = 0 ∧ t.m_backstrides.get i = 0 :=
  (bound_adapted env t hb i).1 h1

theorem bound_degenerate_axis_zero_witness :
    sample_view_1_5.m_shape.get 0 = 1 ∧
      sample_view_1_5.m_strides.get 0 = 0 ∧ sample_view_1_5.m_backstrides.get 0 = 0 :=
  ⟨by decide,
    bound_degenerate_axis_zero (sample_env 2 ⟨0, 0⟩) sample_view_1_5
      (Bound.of_shape ⟨[1, 5], rfl⟩ sample_view_1_5 rfl) 0 (by decide)⟩

/-- C2: on every view produced by a binding path, every axis of extent greater than 1
has backstride `Strides[i] × (Shape[i] − 1)` modulo `2 ^ w`, with the stride the view
reports. -/
theorem bound_backstride_formula (env : Env N) (t : pytensor N) (hb : Bound env t)
    (i : Fin N) (h1 : 1 < t.m_shape.get i) :
    t.m_backstrides.get i = (t.m_strides.get i * (t.m_shape.get i - 1)) % 2 ^ env.w := by
  rw [(bound_adapted env t hb i).2 (by omega), size_mul_size_sub_one _ _ _ (by omega)]

theorem bound_backstride_formula_witness :
    1 < sample_view_2_3.m_shape.get 1 ∧
      sample_view_2_3.m_backstrides.get 1 =
        (sample_view_2_3.m_strides.get 1 * (sample_view_2_3.m_shape.get 1 - 1)) % 2 ^ 64 :=
  ⟨by decide,
    bound_backstride_formula (sample_env 2 ⟨0, 0⟩) sample_view_2_3
      (Bound.of_handle (some (PyObject.ndarray sample_array_2_3)) OwnershipMode.borrowed
        sample_view_2_3 rfl) 1 (by decide)⟩

/-- C3 (amended): the view built by `fromShape(S)` reports stride 0 on every axis of
extent 1 and, on every other axis, the row-major default `D[i]`, where `D[N−1] = 1`
and `D[i] = D[i+1] × S[i+1]` modulo `2 ^ w` for `i < N−1`. -/
theorem fromShape_strides (env : Env N) (S : Mathlib.Vector Nat N) (t : pytensor N)
    (h : fromShape env S = Except.ok t) :
    (∀ i : Fin N, S.get i = 1 → t.m_strides.get i = 0) ∧
    (∀ i : Fin N, S.get i ≠ 1 → t.m_strides.get i = (fill_default_strides env.w S).get i) ∧
    (∀ hN : 0 < N, (fill_default_strides env.w S).get ⟨N - 1, by omega⟩ = 1) ∧
    (∀ (i : Nat) (hi : i + 1 < N),
      (fill_default_strides env.w S).get ⟨i, by omega⟩ =
        size_mul env.w ((fill_default_strides env.w S).get ⟨i + 1, hi⟩) (S.get ⟨i + 1, hi⟩)) := by
  have hf := (init_tensor_fields env _ t _ _ h).2.2
  refine ⟨?_, ?_, fill_default_strides_last env.w S, fill_default_strides_succ env.w S⟩
  · intro i h1; rw [hf i]; simp [h1]
  · intro i h1; rw [hf i]; simp [h1]

theorem fromShape_strides_witness :
    sample_view_1_5.m_strides.get 0 = 0 ∧
      sample_view_1_5.m_strides.get 1 =
        (fill_default_strides 64 (⟨[1, 5], rfl⟩ : Mathlib.Vector Nat 2)).get 1 :=
  have h := fromShape_strides (sample_env 2 ⟨0, 0⟩) ⟨[1, 5], rfl⟩ sample_view_1_5 rfl
  ⟨h.1 0 (by decide), h.2.1 1 (by decide)⟩

/-- C3 (as stated) fails: `fromShape([1, 5])` reports strides `[0, 1]`, so
`Strides[0]` is not `Strides[1] × S[1] = 5`; and `fromShape([5, 1])` reports
`Strides[N−1] = 0`, not 1. -/
theorem fromShape_row_major_counterexample :
    (∃ t, fromShape (sample_env 2 ⟨0, 0⟩) ⟨[1, 5], rfl⟩ = Except.ok t ∧
      t.m_strides.toList = [0, 1] ∧ ¬ (t.m_strides.get 0 = t.m_strides.get 1 * 5)) ∧
    (∃ t, fromShape (sample_env 2 ⟨0, 0⟩) ⟨[5, 1], rfl⟩ = Except.ok t ∧
      ¬ (t.m_strides.get 1 = 1)) :=
  ⟨⟨sample_view_1_5, rfl, rfl, by decide⟩,
    ⟨⟨some (PyObject.ndarray ⟨1, 2, [5, 1], [8, 8], 4096⟩), ⟨[5, 1], rfl⟩, ⟨[1, 0], rfl⟩,
      ⟨[4, 0], rfl⟩, ⟨0, 0⟩⟩, rfl, by decide⟩⟩

/-- C4: `fromShape` leaves `m_data` as default construction made it, whatever the
shape: for every default-constructed adaptor `d` there is a shape (`[2, 3]`, or
`[1, 5]` when `d` happens to count 6 elements) on which the element count of the
adaptor of the bound view is not the product of its shape. `fromHandle` on a 2 × 3
array does bind an adaptor of 6 elements. -/
theorem fromShape_buffer_not_bound (d : pybuffer_adaptor) :
    (∃ (S : Mathlib.Vector Nat 2) (t : pytensor 2),
      fromShape (sample_env 2 d) S = Except.ok t ∧ t.m_shape = S ∧ t.m_data = d ∧
        t.m_data.m_size ≠ S.toList.prod) ∧
    (∃ t : pytensor 2,
      fromHandle (sample_env 2 ⟨0, 0⟩) (some (PyObject.ndarray sample_array_2_3))
          OwnershipMode.borrowed = Except.ok t ∧
        t.m_shape.toList = [2, 3] ∧ t.m_data.m_size = 6) := by
  have key : ∀ S : Mathlib.Vector Nat 2, ∃ t : pytensor 2,
      fromShape (sample_env 2 d) S = Except.ok t ∧ t.m_shape = S ∧ t.m_data = d := by
    intro S
    have hreq : ∃ p, init_tensor_request (sample_env 2 d) S (fill_default_strides 64 S) = some p :=
      ⟨_, rfl⟩
    obtain ⟨p, hp⟩ := hreq
    refine ⟨adapt_strides 64
      { (sample_env 2 d).blank with
        m_ptr := some p, m_shape := S, m_strides := fill_default_strides 64 S }, ?_,
      adapt_strides_shape _ _, adapt_strides_data _ _⟩
    unfold fromShape
    rw [init_tensor_eq]
    show (match init_tensor_request (sample_env 2 d) S (fill_default_strides 64 S) with
      | none => Except.error Failure.allocation_error
      | some p => Except.ok (adapt_strides 64
          { (sample_env 2 d).blank with
            m_ptr := some p, m_shape := S, m_strides := fill_default_strides 64 S })) = _
    rw [hp]
  constructor
  · by_cases h6 : d.m_size = 6
    · obtain ⟨t, ht, hs, hd⟩ := key ⟨[1, 5], rfl⟩
      refine ⟨_, t, ht, hs, hd, ?_⟩
      rw [hd, h6]; decide
    · obtain ⟨t, ht, hs, hd⟩ := key ⟨[2, 3], rfl⟩
      refine ⟨_, t, ht, hs, hd, ?_⟩
      rw [hd]; exact h6
  · exact ⟨sample_view_2_3, by rfl, by rfl, by rfl⟩

/-- C5: on a handle to a NumPy array, `fromHandle` fails with the dimension mismatch
exactly when the rank of the array is not `N`, in either ownership mode; when the
rank is `N` it returns a view whose shape is the shape of the array, entry for entry. -/
theorem fromHandle_rank_check (env : Env N) (a : PyArrayObject) (mode : OwnershipMode)
    (hwf : a.wf env.w) :
    (fromHandle env (some (PyObject.ndarray a)) mode = Except.error Failure.dimension_mismatch
      ↔ a.nd ≠ N) ∧
    (a.nd = N → ∃ t, fromHandle env (some (PyObject.ndarray a)) mode = Except.ok t ∧
      t.m_shape.toList.map Int.ofNat = a.dimensions) := by
  have hrun : fromHandle env (some (PyObject.ndarray a)) mode =
      init_from_python env { env.blank with m_ptr := some (PyObject.ndarray a) } := by
    cases mode <;> rfl
  rw [hrun]
  by_cases hnd : a.nd = N
  · have hok : ∃ t, init_from_python env { env.blank with m_ptr := some (PyObject.ndarray a) }
          = Except.ok t ∧
        t.m_shape = Mathlib.Vector.ofFn (fun i => to_size_t env.w (a.dimensions.getD i 0)) := by
      unfold init_from_python
      simp only [hnd, ne_eq, not_true_eq_false, if_false]
      exact ⟨_, rfl, adapt_strides_shape _ _⟩
    obtain ⟨t, ht, hshape⟩ := hok
    refine ⟨?_, fun _ => ⟨t, ht, ?_⟩⟩
    · rw [ht]; simp [hnd]
    · rw [hshape, Mathlib.Vector.toList_ofFn]
      obtain ⟨hlen, -, hdims, -⟩ := hwf
      apply List.ext_getElem
      · simp [hlen, hnd]
      · intro i h1 h2
        have hi : i < a.dimensions.length := h2
        simp only [List.getElem_map, List.getElem_ofFn]
        rw [List.getD_eq_getElem _ _ hi]
        have hmem := hdims _ (List.getElem_mem hi)
        exact to_size_t_of_nonneg env.w _ hmem.1 hmem.2
  · have herr : init_from_python env { env.blank with m_ptr := some (PyObject.ndarray a) }
        = Except.error Failure.dimension_mismatch := by
      unfold init_from_python
      simp [hnd]
    refine ⟨?_, fun h => absurd h hnd⟩
    rw [herr]; simp [hnd]

theorem fromHandle_rank_check_witness :
    (fromHandle (sample_env 2 ⟨0, 0⟩) (some (PyObject.ndarray sample_array_3))
        OwnershipMode.stolen = Except.error Failure.dimension_mismatch) ∧
    (∃ t, fromHandle (sample_env 2 ⟨0, 0⟩) (some (PyObject.ndarray sample_array_2_3))
        OwnershipMode.borrowed = Except.ok t ∧
      t.m_shape.toList.map Int.ofNat = sample_array_2_3.dimensions) :=
  ⟨(fromHandle_rank_check (sample_env 2 ⟨0, 0⟩) sample_array_3 OwnershipMode.stolen
      (by simp [PyArrayObject.wf, sample_array_3, sample_env])).1.2 (by decide),
   (fromHandle_rank_check (sample_env 2 ⟨0, 0⟩) sample_array_2_3 OwnershipMode.borrowed
      (by simp [PyArrayObject.wf, sample_array_2_3, sample_env])).2 rfl⟩

/-- C6: `ensure` does raise. When the coercion yields an array whose rank is not `N`,
the `stolen_t` constructor throws the dimension mismatch and `ensure` lets it through;
when the coercion yields no object, `init_from_python` reads the rank through the
null pointer before `ensure` reaches its own null test. -/
theorem ensure_does_not_return (env : Env N) (h : Option PyObject) :
    (∀ a, env.raw_array_t h = some (PyObject.ndarray a) → a.nd ≠ N →
      ensure env h = Except.error Failure.dimension_mismatch) ∧
    (env.raw_array_t h = none → ensure env h = Except.error Failure.undefined) := by
  constructor
  · intro a ha hnd
    unfold ensure fromHandle init_from_python
    simp [ha, hnd]
  · intro hnone
    unfold ensure fromHandle init_from_python
    simp [hnone]

theorem ensure_does_not_return_witness :
    ensure (sample_env 2 ⟨0, 0⟩) (some (PyObject.ndarray sample_array_3))
        = Except.error Failure.dimension_mismatch ∧
    ensure (sample_env 2 ⟨0, 0⟩) none = Except.error Failure.undefined :=
  ⟨(ensure_does_not_return (sample_env 2 ⟨0, 0⟩) (some (PyObject.ndarray sample_array_3))).1
      sample_array_3 rfl (by decide),
   (ensure_does_not_return (sample_env 2 ⟨0, 0⟩) none).2 rfl⟩

/-- C7 (amended): `reshape([3, 2])` on a view of shape `[2, 3]` leaves the view with
shape `[3, 2]`, strides `[2, 1]` and backstrides `[4, 1]`, bound to the array object
the allocator returned. -/
theorem reshape_2_3_to_3_2 (env : Env 2) (hw : 3 ≤ env.w) (self : pytensor 2)
    (hs : self.m_shape = ⟨[2, 3], rfl⟩) (p : PyObject)
    (hp : init_tensor_request env ⟨[3, 2], rfl⟩ (fill_default_strides env.w ⟨[3, 2], rfl⟩)
      = some p) :
    ∃ t, reshape env self ⟨[3, 2], rfl⟩ = Except.ok t ∧ t.m_ptr = some p ∧
      t.m_shape = ⟨[3, 2], rfl⟩ ∧ t.m_strides = ⟨[2, 1], rfl⟩ ∧
      t.m_backstrides = ⟨[4, 1], rfl⟩ := by
  have h8 : 2 ^ 3 ≤ 2 ^ env.w := Nat.pow_le_pow_right (by decide) hw
  have hne : (⟨[3, 2], rfl⟩ : Mathlib.Vector Nat 2) ≠ self.m_shape := by
    rw [hs]; decide
  have hfill : fill_default_strides env.w (⟨[3, 2], rfl⟩ : Mathlib.Vector Nat 2)
      = ⟨[2, 1], rfl⟩ := by
    apply Subtype.ext
    show [size_mul env.w 1 2, 1] = [2, 1]
    unfold size_mul
    rw [Nat.mod_eq_of_lt (by omega)]
  refine ⟨adapt_strides env.w
    { env.blank with
      m_ptr := some p, m_shape := ⟨[3, 2], rfl⟩,
      m_strides := fill_default_strides env.w ⟨[3, 2], rfl⟩ }, ?_, ?_, ?_, ?_, ?_⟩
  · unfold reshape
    rw [if_pos hne, reshape_strides_eq, fromShapeAndStrides_of_request env _ _ p hp]
  · rw [adapt_strides_ptr]
  · rw [adapt_strides_shape]
  · apply Mathlib.Vector.ext
    intro i
    rw [adapt_strides_strides, hfill]
    fin_cases i <;> rfl
  · apply Mathlib.Vector.ext
    intro i
    rw [adapt_strides_backstrides, hfill]
    fin_cases i
    · show size_mul env.w 2 (size_sub env.w 3 1) = 4
      rw [size_mul_size_sub_one _ _ _ (by decide)]
      exact Nat.mod_eq_of_lt (by omega)
    · show size_mul env.w 1 (size_sub env.w 2 1) = 1
      rw [size_mul_size_sub_one _ _ _ (by decide)]
      exact Nat.mod_eq_of_lt (by omega)

theorem reshape_2_3_to_3_2_witness :
    ∃ t, reshape (sample_env 2 ⟨0, 0⟩) sample_view_2_3 ⟨[3, 2], rfl⟩ = Except.ok t ∧
      t.m_ptr = some (PyObject.ndarray ⟨1, 2, [3, 2], [16, 8], 4096⟩) ∧
      t.m_shape = ⟨[3, 2], rfl⟩ ∧ t.m_strides = ⟨[2, 1], rfl⟩ ∧
      t.m_backstrides = ⟨[4, 1], rfl⟩ :=
  reshape_2_3_to_3_2 (sample_env 2 ⟨0, 0⟩) (by decide) sample_view_2_3 rfl
    (PyObject.ndarray ⟨1, 2, [3, 2], [16, 8], 4096⟩) rfl

/-- C7 (as stated) fails: after `reshape([3, 2])` on the view `fromShape([2, 3])`
built, the backstrides are `[4, 1]`, not `[2, 1]`. -/
theorem reshape_2_3_to_3_2_counterexample :
    ∃ v t, fromShape (sample_env 2 ⟨0, 0⟩) ⟨[2, 3], rfl⟩ = Except.ok v ∧
      v.m_strides.toList = [3, 1] ∧
      reshape (sample_env 2 ⟨0, 0⟩) v ⟨[3, 2], rfl⟩ = Except.ok t ∧
      t.m_shape.toList = [3, 2] ∧ t.m_strides.toList = [2, 1] ∧
      t.m_backstrides.toList = [4, 1] ∧ t.m_backstrides.toList ≠ [2, 1] :=
  ⟨⟨some (PyObject.ndarray ⟨1, 2, [2, 3], [24, 8], 4096⟩), ⟨[2, 3], rfl⟩, ⟨[3, 1], rfl⟩,
      ⟨[3, 2], rfl⟩, ⟨0, 0⟩⟩,
    ⟨some (PyObject.ndarray ⟨1, 2, [3, 2], [16, 8], 4096⟩), ⟨[3, 2], rfl⟩, ⟨[2, 1], rfl⟩,
      ⟨[4, 1], rfl⟩, ⟨0, 0⟩⟩,
    rfl, rfl, rfl, rfl, rfl, rfl, by decide⟩

/-- C8 (amended): `reshape(newShape)` with `newShape` equal to the current shape
returns the view as it is, without an allocation request. `reshape(newShape,
newStrides)` makes no such test: whatever the current shape, it requests a new array
object, fails when none is returned, and otherwise binds the new object with shape
`newShape` and strides `newStrides`, zeroed on the axes of extent 1. -/
theorem reshape_same_shape (env : Env N) (self : pytensor N) :
    reshape env self self.m_shape = Except.ok self ∧
    (∀ shape strides : Mathlib.Vector Nat N,
      (init_tensor_request env shape strides = none →
        reshape_strides env self shape strides = Except.error Failure.allocation_error) ∧
      (∀ p, init_tensor_request env shape strides = some p →
        ∃ t, reshape_strides env self shape strides = Except.ok t ∧ t.m_ptr = some p ∧
          t.m_shape = shape ∧
          ∀ i : Fin N, t.m_strides.get i = if shape.get i = 1 then 0 else strides.get i)) := by
  constructor
  · unfold reshape
    simp
  · intro shape strides
    constructor
    · intro hnone
      rw [reshape_strides_eq, fromShapeAndStrides_of_no_object env _ _ hnone]
    · intro p hp
      refine ⟨adapt_strides env.w
        { env.blank with m_ptr := some p, m_shape := shape, m_strides := strides }, ?_,
        adapt_strides_ptr _ _, adapt_strides_shape _ _, ?_⟩
      · rw [reshape_strides_eq, fromShapeAndStrides_of_request env _ _ p hp]
      · intro i
        rw [adapt_strides_strides]

theorem reshape_same_shape_witness :
    reshape (sample_env_no_memory 2) sample_view_2_3 sample_view_2_3.m_shape
        = Except.ok sample_view_2_3 ∧
    reshape_strides (sample_env_no_memory 2) sample_view_2_3 sample_view_2_3.m_shape
        sample_view_2_3.m_strides = Except.error Failure.allocation_error :=
  have h := reshape_same_shape (sample_env_no_memory 2) sample_view_2_3
  ⟨h.1, (h.2 sample_view_2_3.m_shape sample_view_2_3.m_strides).1 rfl⟩

/-- C8 (as stated) fails for the form with strides: on the bound view of shape
`[2, 3]` and strides `[3, 1]`, `reshape([2, 3], [1, 2])` installs the strides
`[1, 2]` and binds a different object; and when the allocator has no memory,
`reshape([2, 3], [3, 1])` raises. -/
theorem reshape_same_shape_counterexample :
    Bound (sample_env 2 ⟨0, 0⟩) sample_view_2_3 ∧
    (∃ t, reshape_strides (sample_env 2 ⟨0, 0⟩) sample_view_2_3 sample_view_2_3.m_shape
        ⟨[1, 2], rfl⟩ = Except.ok t ∧
      t.m_strides ≠ sample_view_2_3.m_strides ∧ t.m_ptr ≠ sample_view_2_3.m_ptr) ∧
    reshape_strides (sample_env_no_memory 2) sample_view_2_3 sample_view_2_3.m_shape
        sample_view_2_3.m_strides = Except.error Failure.allocation_error :=
  ⟨Bound.of_handle (some (PyObject.ndarray sample_array_2_3)) OwnershipMode.borrowed
      sample_view_2_3 rfl,
    ⟨⟨some (PyObject.ndarray ⟨1, 2, [2, 3], [8, 16], 4096⟩), ⟨[2, 3], rfl⟩, ⟨[1, 2], rfl⟩,
      ⟨[1, 4], rfl⟩, ⟨0, 0⟩⟩, rfl, by decide, by decide⟩,
    rfl⟩

/-- C9: a negative byte stride is not divided exactly. On a 64-bit platform with
8-byte elements the reversed array (byte stride −8) gets the stored stride `2^61 − 1`,
whose signed reading is not −1; the shape constructors do turn the stored
stride `2^64 − 1` (−1) into the byte stride −8. -/
theorem fromHandle_negative_byte_stride :
    ∃ t, fromHandle (sample_env 1 ⟨0, 0⟩) (some (PyObject.ndarray sample_array_3_reversed))
        OwnershipMode.borrowed = Except.ok t ∧
      t.m_shape.toList = [3] ∧
      t.m_strides.toList = [2 ^ 61 - 1] ∧
      to_npy_intp 64 (t.m_strides.get 0) ≠ (-8) / 8 ∧
      to_npy_intp 64 (size_mul 64 8 (2 ^ 64 - 1)) = -8 :=
  ⟨⟨some (PyObject.ndarray sample_array_3_reversed), ⟨[3], rfl⟩, ⟨[2305843009213693951], rfl⟩,
      ⟨[4611686018427387902], rfl⟩, ⟨8208, 3⟩⟩, by rfl, by rfl, by decide, by decide, by decide⟩

/-- C10: `adapt_strides` leaves the shape alone and changes a stride only on an axis
of extent 1. On an axis of extent 0 the stride `s` stays and the backstride becomes
`s × (0 − 1)` in unsigned `w`-bit arithmetic, that is `(2 ^ w − s) mod 2 ^ w`, which
is not zero when `s` is not zero. -/
theorem adapt_strides_frame_and_empty_axis (w : Nat) (t : pytensor N) :
    (adapt_strides w t).m_shape = t.m_shape ∧
    (∀ i : Fin N, t.m_shape.get i ≠ 1 →
      (adapt_strides w t).m_strides.get i = t.m_strides.get i) ∧
    (∀ i : Fin N, t.m_shape.get i = 0 → t.m_strides.get i < 2 ^ w →
      (adapt_strides w t).m_strides.get i = t.m_strides.get i ∧
      (adapt_strides w t).m_backstrides.get i = (2 ^ w - t.m_strides.get i) % 2 ^ w ∧
      (t.m_strides.get i ≠ 0 → (adapt_strides w t).m_backstrides.get i ≠ 0)) := by
  refine ⟨adapt_strides_shape w t, ?_, ?_⟩
  · intro i h1
    rw [adapt_strides_strides]; simp [h1]
  · intro i h0 hs
    have hb : (adapt_strides w t).m_backstrides.get i = (2 ^ w - t.m_strides.get i) % 2 ^ w := by
      rw [adapt_strides_backstrides, h0]
      simp only [Nat.zero_ne_one, if_false]
      exact size_mul_size_sub_zero w _ hs
    refine ⟨?_, hb, ?_⟩
    · rw [adapt_strides_strides, h0]; simp
    · intro hne
      rw [hb, Nat.mod_eq_of_lt (by omega)]
      omega

theorem adapt_strides_frame_and_empty_axis_witness :
    (adapt_strides 64 sample_state_0_3).m_shape = sample_state_0_3.m_shape ∧
    (adapt_strides 64 sample_state_0_3).m_strides.get 0 = 3 ∧
    (adapt_strides 64 sample_state_0_3).m_backstrides.get 0 = (2 ^ 64 - 3) % 2 ^ 64 ∧
    (adapt_strides 64 sample_state_0_3).m_backstrides.get 0 ≠ 0 :=
  have h := adapt_strides_frame_and_empty_axis 64 sample_state_0_3
  have h0 := h.2.2 0 (by decide) (by decide)
  ⟨h.1, h0.1, h0.2.1, h0.2.2 (by decide)⟩

end pytensor

end xt
